import Mathlib

/-!
Shallow embedding of `responsibleai/rai_insights/rai_forecasting_insights.py`
(class `RAIForecastingInsights`) together with a verification of its
natural-language specification.

Conventions of the embedding:
* Values stored in the tabular datasets are modelled by `PyValue`
  (machine integers and strings; a Python `float()` cast of a machine
  integer is exact in the range the data model uses, so it is modelled as
  the identity on integers).
* Python exceptions are modelled by `PyError`; fallible code returns
  `Except PyError _`.
* A Python instance attribute that may be unset is modelled as an `Option`
  field whose value `none` means "never assigned"; reading an unset
  attribute raises `AttributeError`.
* External collaborators that live outside the analysed module
  (`raiutils`, `erroranalysis`, `responsibleai.feature_metadata`,
  `responsibleai.rai_insights.rai_base_insights`, pandas, numpy) are
  modelled from the specification of their interface; each such definition
  carries a doc comment saying so.
-/

/-- A Python value appearing in a dataset cell, an index entry or a
prediction output. -/
inductive PyValue where
  | int (n : Int)
  | str (s : String)
deriving DecidableEq

/-- Python `str(v)`. -/
def pyStr : PyValue → String
  | .int n => toString n
  | .str s => s

/-- The Python exceptions raised by the embedded code. -/
inductive PyError where
  | userConfigValidation (msg : String)
  | attributeError (name : String)
  | typeError (msg : String)
  | keyError (key : String)
  | valueError (msg : String)
deriving DecidableEq

/-- A pandas DataFrame: ordered named columns, row-major cell data, and a
row index. -/
structure DataFrame where
  columns : List String
  rows : List (List PyValue)
  index : List PyValue := []
deriving DecidableEq

/-- `len(df)` / `df.shape[0]`. -/
def DataFrame.nrows (df : DataFrame) : Nat := df.rows.length

/-- Position of column `c` inside `df.columns`. -/
def DataFrame.colIdx (df : DataFrame) (c : String) : Option Nat :=
  df.columns.findIdx? (fun x => x == c)

/-- `df[c]`: the values of column `c`; `KeyError` when the column is absent. -/
def DataFrame.getCol (df : DataFrame) (c : String) : Except PyError (List PyValue) :=
  match df.colIdx c with
  | some i => .ok (df.rows.map (fun r => r.getD i (.str "")))
  | none => .error (.keyError c)

/-- `df.drop(columns=[c])`.  Every call site in the source first
establishes that `c` is present, so the embedding is total and leaves the
frame unchanged when the column is absent. -/
def DataFrame.drop (df : DataFrame) (c : String) : DataFrame :=
  match df.colIdx c with
  | some i => { df with columns := df.columns.eraseIdx i,
                        rows := df.rows.map (fun r => r.eraseIdx i) }
  | none => df

/-- `df.iloc[0:1]`: the first row of the frame. -/
def DataFrame.head1 (df : DataFrame) : DataFrame :=
  { df with rows := df.rows.take 1, index := df.index.take 1 }

/-- Modelled from the spec: `responsibleai.feature_metadata.FeatureMetadata`
(not under `src/`) — a declaration of column roles: categorical features,
the time column, the time-series identifier columns, identity feature,
datetime features and dropped features (spec section 3).  All fields
default to Python `None`. -/
structure FeatureMetadata where
  identity_feature_name : Option String := none
  datetime_features : Option (List String) := none
  categorical_features : Option (List String) := none
  dropped_features : Option (List String) := none
  time_column_name : Option String := none
  time_series_id_column_names : Option (List String) := none
deriving DecidableEq

/-- The opaque model object: `predict`, optionally `predict_quantiles`,
optionally a `time_column_name` attribute (spec sections 3 and 6).  A
capability that the object does not expose is `none`; invoking it raises
`AttributeError`.  The callables themselves are modelled as pure total
functions of the input frame. -/
structure PyModel where
  predict : Option (DataFrame → List PyValue) := none
  predict_quantiles : Option (DataFrame → List (List PyValue)) := none
  time_column_name : Option String := none

/-- The optional custom serializer: probed for `save`/`load` attributes and
for picklability (spec section 4.1 rule 2). -/
structure Serializer where
  has_save : Bool := true
  has_load : Bool := true
  picklable : Bool := true
deriving DecidableEq

/-- Modelled from the spec: `raiutils.models.is_forecaster` — a model
satisfies the forecaster capability when it is present and exposes
`predict` (spec sections 3 and 6, glossary). -/
def is_forecaster : Option PyModel → Bool
  | none => false
  | some m => m.predict.isSome

/-- Modelled from the spec: `raiutils.models.is_quantile_forecaster` — the
model additionally exposes `predict_quantiles` (spec section 3, glossary). -/
def is_quantile_forecaster : Option PyModel → Bool
  | none => false
  | some m => m.predict.isSome && m.predict_quantiles.isSome

/-- `getattr(model, "time_column_name", None)`: `None` both when the model
is absent and when it has no such attribute. -/
def modelTimeColumn (model : Option PyModel) : Option String :=
  model.bind (fun m => m.time_column_name)

/-- Error message of `_ensure_time_column_available` when no time column is
available at all (source lines 373-375). -/
def timeColumnRequiredMsg : String :=
  "There was no time column name in feature metadata. A time column is required for forecasting."

/-- Error message when the model expects a time column absent from the data
(source lines 383-386). -/
def modelTimeColumnMissingMsg (mt : String) : String :=
  "The provided model expects a time column named " ++ mt ++
    " that is not present in the provided dataset."

/-- Error message when metadata and model disagree on the time column
(source lines 390-393). -/
def timeColumnMismatchMsg (ft mt : String) : String :=
  "The provided time column name " ++ ft ++
    " does not match the model expected time column name " ++ mt ++ "."

/-- `RAIForecastingInsights._ensure_time_column_available`
(source lines 347-393).  Mutation of `feature_metadata` in place is
modelled by returning the updated metadata. -/
def ensure_time_column_available (feature_metadata : FeatureMetadata)
    (feature_names : List String) (model : Option PyModel) :
    Except PyError FeatureMetadata :=
  let fm_time_column := feature_metadata.time_column_name
  let model_time_column := modelTimeColumn model
  match model_time_column with
  | none =>
    match fm_time_column with
    | some _ => .ok feature_metadata
    | none => .error (.userConfigValidation timeColumnRequiredMsg)
  | some mt =>
    match fm_time_column with
    | none =>
      if feature_names.contains mt then
        .ok { feature_metadata with time_column_name := some mt }
      else
        .error (.userConfigValidation (modelTimeColumnMissingMsg mt))
    | some ft =>
      if ft ≠ mt then
        .error (.userConfigValidation (timeColumnMismatchMsg ft mt))
      else
        .ok feature_metadata

/-- Worker for `firstOccurrences`: `seen` holds the values already
emitted. -/
def firstOccurrencesAux {α : Type} [DecidableEq α] : List α → List α → List α
  | _, [] => []
  | seen, x :: xs =>
    if x ∈ seen then firstOccurrencesAux seen xs
    else x :: firstOccurrencesAux (x :: seen) xs

/-- Order of distinct values as produced by `pandas.Series.unique`: each
value at its first appearance. -/
def firstOccurrences {α : Type} [DecidableEq α] (l : List α) : List α :=
  firstOccurrencesAux [] l

/-- Comparison step of a pandas reduction over an object column: two values
of the same kind compare by their natural order, a mixed comparison raises
`TypeError` as in Python 3. -/
def pyMin2 : PyValue → PyValue → Except PyError PyValue
  | .int a, .int b => .ok (.int (min a b))
  | .str a, .str b => .ok (.str (min a b))
  | _, _ => .error (.typeError "ordering comparison not supported between instances of str and int")

/-- See `pyMin2`. -/
def pyMax2 : PyValue → PyValue → Except PyError PyValue
  | .int a, .int b => .ok (.int (max a b))
  | .str a, .str b => .ok (.str (max a b))
  | _, _ => .error (.typeError "ordering comparison not supported between instances of str and int")

/-- `series.min()`.  The empty case (pandas would produce NaN) is modelled
as an error; the analysed code only reaches it through validated non-empty
frames. -/
def seriesMin : List PyValue → Except PyError PyValue
  | [] => .error (.valueError "min of an empty series")
  | v :: vs => vs.foldlM pyMin2 v

/-- `series.max()`. -/
def seriesMax : List PyValue → Except PyError PyValue
  | [] => .error (.valueError "max of an empty series")
  | v :: vs => vs.foldlM pyMax2 v

/-- Python `float(v)`: exact on the machine integers this data model uses,
hence modelled as the identity on integers; a non-numeric string raises
`ValueError`. -/
def pyFloatCast : PyValue → Except PyError PyValue
  | .int n => .ok (.int n)
  | .str s => .error (.valueError ("could not convert string to float: " ++ s))

/-- One `res_object` of `RAIForecastingInsights._get_feature_ranges`
(source lines 605-621). -/
structure FeatureRangeEntry where
  column_name : String
  range_type : String
  unique_values : Option (List PyValue) := none
  min_value : Option PyValue := none
  max_value : Option PyValue := none
deriving DecidableEq

/-- The loop body of `RAIForecastingInsights._get_feature_ranges` for one
feature column (source lines 604-621). -/
def feature_range_for (test : DataFrame) (categorical_features : List String)
    (time_column_name : Option String) (col : String) :
    Except PyError FeatureRangeEntry := do
  if categorical_features.contains col then
    let vals ← test.getCol col
    pure { column_name := col, range_type := "categorical",
           unique_values := some (firstOccurrences vals) }
  else if time_column_name = some col then
    let vals ← test.getCol col
    let mn ← seriesMin vals
    let mx ← seriesMax vals
    pure { column_name := col, range_type := "datetime",
           min_value := some mn, max_value := some mx }
  else
    let vals ← test.getCol col
    let mn0 ← seriesMin vals
    let mx0 ← seriesMax vals
    let min_value ← pyFloatCast mn0
    let max_value ← pyFloatCast mx0
    pure { column_name := col, range_type := "integer",
           min_value := some min_value, max_value := some max_value }

/-- `RAIForecastingInsights._get_feature_ranges` (source lines 599-622):
one entry per feature column, in order. -/
def get_feature_ranges (test : DataFrame) (categorical_features : List String)
    (feature_columns : List String) (time_column_name : Option String) :
    Except PyError (List FeatureRangeEntry) :=
  feature_columns.mapM (feature_range_for test categorical_features time_column_name)

/-- `v` is a Python integer. -/
def isIntV : PyValue → Bool
  | .int _ => true
  | .str _ => false

/-- Nonemptiness of the set difference `set(a) - set(b)`. -/
def setDiffNonempty (a b : List String) : Bool :=
  a.any (fun x => !(b.contains x))

/-- `np.unique` succeeds on a column exactly when its values are mutually
comparable, i.e. all integers or all strings (numpy sorts the values and a
mixed-type comparison raises). -/
def npUniqueOk (vs : List PyValue) : Bool :=
  vs.all isIntV || vs.all (fun v => !isIntV v)

def serializerWithoutModelMsg : String :=
  "No valid model is specified but model serializer provided."

def serializerNoSaveMsg : String := "The serializer does not implement save()"

def serializerNoLoadMsg : String := "The serializer does not implement load()"

def serializerNotPicklableMsg : String :=
  "The serializer should be serializable via pickle"

def emptyTrainTestMsg : String :=
  "Either of the train/test are empty. Please provide non-empty dataframes for train and test sets."

/-- The test-row-limit message (source lines 221-224): it references both
the actual test row count and the configured limit. -/
def rowLimitMsg (nrows limit : Nat) : String :=
  "The test data has " ++ toString nrows ++ " rows, but limit is set to " ++
    toString limit ++
    " rows. Please resample the test data or adjust maximum_rows_for_test"

def trainTestMismatchMsg : String :=
  "The features in train and test data do not match"

def targetMissingMsg (t : String) : String :=
  "Target name " ++ t ++ " not present in train data"

def targetInCategoricalMsg (t : String) : String :=
  "Found target name " ++ t ++ " in categorical feature list"

def catNotInTrainMsg (missing : List String) : String :=
  "Feature names in categorical_features do not exist in train data: " ++
    toString missing

def uniqueValuesErrMsg (c whichSet : String) : String :=
  "Error finding unique values in column " ++ c ++ ". Please check your " ++
    whichSet ++ " data."

def stringFeaturesNotCategoricalMsg (cols : List String) : String :=
  "The following string features were not identified as categorical features: " ++
    toString cols

def predictFailMsg : String :=
  "The model passed cannot be used for getting predictions via predict()"

/-- The per-column `np.unique` probing loop of the categorical checks
(source lines 260-273): a failure on the train column, then on the test
column, is wrapped into a column-specific validation error. -/
def checkCategoricalUnique (train test : DataFrame) : List String → Except PyError Unit
  | [] => .ok ()
  | c :: rest =>
    match train.getCol c with
    | .error _ => .error (.userConfigValidation (uniqueValuesErrMsg c "train"))
    | .ok vs =>
      if npUniqueOk vs then
        match test.getCol c with
        | .error _ => .error (.userConfigValidation (uniqueValuesErrMsg c "test"))
        | .ok ws =>
          if npUniqueOk ws then checkCategoricalUnique train test rest
          else .error (.userConfigValidation (uniqueValuesErrMsg c "test"))
      else .error (.userConfigValidation (uniqueValuesErrMsg c "train"))

/-- Modelled from the spec: `FeatureMetadata.validate` (not under `src/`)
— metadata's own internal validation: every column declared for any role
must exist among the feature names (spec section 4.1 rule 10). -/
def featureMetadata_validate (fm : FeatureMetadata) (feature_names : List String) :
    Except PyError Unit :=
  let declared := fm.categorical_features.getD [] ++ fm.datetime_features.getD [] ++
    fm.dropped_features.getD [] ++ (fm.identity_feature_name.map (fun c => [c])).getD [] ++
    (fm.time_column_name.map (fun c => [c])).getD [] ++
    fm.time_series_id_column_names.getD []
  if declared.all (fun c => feature_names.contains c) then .ok ()
  else .error (.userConfigValidation
    "feature metadata declares a column that does not exist in the dataset")

/-- Modelled from the spec: `erroranalysis process_categoricals` — an
external categorical-processing collaborator whose output shape is opaque
to this core (spec sections 2 and 6); modelled as an uninterpreted total
function of its inputs. -/
def process_categoricals (all_feature_names : List String)
    (categorical_features : List String) (dataset : DataFrame) :
    List String × List Nat × List String × List (List PyValue) :=
  ([], [], [], [])

/-- `RAIForecastingInsights._validate_rai_insights_input_parameters`
(source lines 150-324), in source order.  `train` and `test` are
`DataFrame`s by the embedding's types, so the `isinstance` branch of
lines 213-313 is always taken.  The embedded model callables are pure, so
the one-row `predict` probe of lines 288-308 fails exactly when the model
lacks `predict`, and the side-effect check of `_validate_features_same`
passes.  In-place mutation of `feature_metadata` by
`_ensure_time_column_available` is modelled by returning the updated
metadata (`none` when none was supplied). -/
def validate_rai_insights_input_parameters (model : Option PyModel)
    (train test : DataFrame) (target_column : String)
    (serializer : Option Serializer) (maximum_rows_for_test : Nat)
    (feature_metadata : Option FeatureMetadata) (is_true_y_present : Bool) :
    Except PyError (Option FeatureMetadata) := do
  if model.isNone then
    -- a non-fatal INVALID-MODEL-WARNING is emitted first
    if serializer.isSome then
      throw (.userConfigValidation serializerWithoutModelMsg)
  match serializer with
  | some s => do
    if !s.has_save then
      throw (.userConfigValidation serializerNoSaveMsg)
    if !s.has_load then
      throw (.userConfigValidation serializerNoLoadMsg)
    if !s.picklable then
      throw (.userConfigValidation serializerNotPicklableMsg)
  | none => pure ()
  if train.nrows ≤ 0 ∨ test.nrows ≤ 0 then
    throw (.userConfigValidation emptyTrainTestMsg)
  if test.nrows > maximum_rows_for_test then
    throw (.userConfigValidation (rowLimitMsg test.nrows maximum_rows_for_test))
  if (setDiffNonempty train.columns test.columns ||
      setDiffNonempty test.columns train.columns) && is_true_y_present then
    throw (.userConfigValidation trainTestMismatchMsg)
  if !(train.columns.contains target_column) then
    throw (.userConfigValidation (targetMissingMsg target_column))
  -- line 242: attribute access on a possibly-None feature_metadata
  let categorical_features ← match feature_metadata with
    | none => throw (.attributeError "categorical_features")
    | some fm => pure fm.categorical_features
  match categorical_features with
  | some cf =>
    if cf.length > 0 then do
      if cf.contains target_column then
        throw (.userConfigValidation (targetInCategoricalMsg target_column))
      let difference_set := (firstOccurrences cf).filter
        (fun x => !((train.drop target_column).columns.contains x))
      if difference_set.length > 0 then
        throw (.userConfigValidation (catNotInTrainMsg difference_set))
      checkCategoricalUnique train test cf
  | none => pure ()
  let train_features := (train.drop target_column).columns
  let numeric_features := train_features.filter (fun c =>
    match (train.drop target_column).getCol c with
    | .ok vs => vs.all isIntV
    | .error _ => false)
  let string_features_0 := train_features.filter (fun c => !(numeric_features.contains c))
  -- lines 280-281: set.remove raises KeyError when the element is absent
  let string_features_set ← match feature_metadata with
    | some fm =>
      match fm.time_column_name with
      | some t =>
        if string_features_0.contains t then pure (string_features_0.erase t)
        else throw (.keyError t)
      | none => pure string_features_0
    | none => pure string_features_0
  -- line 282: set(categorical_features) raises TypeError on None
  let cfList ← match categorical_features with
    | none => throw (.typeError "argument of type NoneType is not iterable")
    | some cf => pure cf
  if (string_features_set.filter (fun c => !(cfList.contains c))).length > 0 then
    throw (.userConfigValidation (stringFeaturesNotCategoricalMsg
      (string_features_set.filter (fun c => !(cfList.contains c)))))
  match model with
  | none => pure ()
  | some m =>
    let small_test_data := if is_true_y_present then test.head1.drop target_column
      else test.head1
    match m.predict with
    | none => throw (.userConfigValidation predictFailMsg)
    | some f =>
      let _ := f small_test_data
      pure ()
  match feature_metadata with
  | none => pure none
  | some fm => do
    let feature_names := train.columns
    let fm2 ← ensure_time_column_available fm feature_names model
    featureMetadata_validate fm2 feature_names
    pure (some fm2)

/-- Modelled from the spec: `raiutils.cohort.CohortFilter` — a filter with
a method, an allowed-value list and a column (spec sections 3 and 4.5). -/
structure CohortFilter where
  method : String
  arg : List String
  column : String
deriving DecidableEq

/-- Modelled from the spec:
`raiutils.cohort.CohortFilterMethods.METHOD_INCLUDES`. -/
def METHOD_INCLUDES : String := "includes"

/-- Modelled from the spec: `raiutils.cohort.Cohort` — a named cohort
carrying an ordered list of filters (spec section 3). -/
structure Cohort where
  name : String
  cohort_filters : List CohortFilter
deriving DecidableEq

/-- Strict comparison of two `PyValue`s as sorting keys: same-kind values
compare by their natural order; across kinds, integers sort before
strings (a fixed tie-break making the order total). -/
def pyValueLt : PyValue → PyValue → Bool
  | .int a, .int b => decide (a < b)
  | .int _, .str _ => true
  | .str _, .int _ => false
  | .str a, .str b => decide (a < b)

/-- Lexicographic strict order on sorting-key tuples. -/
def keyLt : List PyValue → List PyValue → Bool
  | [], [] => false
  | [], _ :: _ => true
  | _ :: _, [] => false
  | a :: as, b :: bs => pyValueLt a b || (decide (a = b) && keyLt as bs)

/-- The `value_counts` ordering on (key, count) pairs: larger count first,
ties broken by ascending key order. -/
def vcLeB (x y : List PyValue × Nat) : Bool :=
  decide (y.2 < x.2) || (decide (x.2 = y.2) && !keyLt y.1 x.1)

/-- `vcLeB` as a decidable relation for sorting. -/
def vcRel (x y : List PyValue × Nat) : Prop := vcLeB x y = true

instance : DecidableRel vcRel := fun x y => by
  unfold vcRel
  infer_instance

/-- Frequency of each distinct key row, keys in first-appearance order
(the sizes of the groupby groups). -/
def tallyKeys (rows : List (List PyValue)) : List (List PyValue × Nat) :=
  (firstOccurrences rows).map (fun k => (k, rows.countP (fun r => decide (r = k))))

/-- Modelled from pandas: `df[cols].value_counts().index` — the distinct
rows of the projected frame with their frequencies, ordered by descending
frequency, ties broken by ascending key order (spec section 4.5). -/
def pandasValueCounts (rows : List (List PyValue)) : List (List PyValue × Nat) :=
  List.insertionSort vcRel (tallyKeys rows)

/-- Python `list += str` extends the list with the CHARACTERS of the
string, each becoming a one-character string (source line 544). -/
def stringChars (s : String) : List String :=
  s.toList.map (fun c => String.singleton c)

/-- The cohort built for one distinct combination of time-series-id values
(loop body of `_generate_time_series_cohorts`, source lines 537-552).  The
name accumulator is a list extended with `+=`, i.e. character-wise. -/
def mkTimeSeriesCohort (cols : List String) (key : List PyValue) : Cohort :=
  let column_value_combinations := cols.zip (key.map pyStr)
  let id_columns_name_value_mapping :=
    column_value_combinations.foldl
      (fun acc cv => acc ++ stringChars (cv.fst ++ " = " ++ cv.snd)) []
  let filters := column_value_combinations.map
    (fun cv => { method := METHOD_INCLUDES, arg := [cv.snd], column := cv.fst : CohortFilter })
  { name := String.intercalate ", " id_columns_name_value_mapping,
    cohort_filters := filters }

/-- `df[cols]` column resolution: the position of every requested column;
`KeyError` when one is absent. -/
def resolveColumnIdxs (df : DataFrame) (cols : List String) : Except PyError (List Nat) :=
  cols.mapM (fun c => match df.colIdx c with
    | some i => .ok i
    | none => .error (.keyError c))

/-- One row of `df[cols]`. -/
def projectRow (idxs : List Nat) (r : List PyValue) : List PyValue :=
  idxs.map (fun i => r.getD i (.str ""))

/-- `RAIForecastingInsights._generate_time_series_cohorts` (source lines
533-553).  `self.test[None]` — id columns undeclared — raises
`KeyError: None`. -/
def generate_time_series_cohorts (test : DataFrame)
    (feature_metadata : FeatureMetadata) : Except PyError (List Cohort) := do
  let cols ← match feature_metadata.time_series_id_column_names with
    | none => throw (.keyError "None")
    | some cs => pure cs
  let idxs ← resolveColumnIdxs test cols
  let keyRows := test.rows.map (projectRow idxs)
  let all_time_series := pandasValueCounts keyRows
  pure (all_time_series.map (fun kv => mkTimeSeriesCohort cols kv.fst))

/-- Source line 128 tests `if is_quantile_forecaster:` — the truthiness of
the imported function object itself, not of a call on the model — and a
Python function object is always truthy. -/
def is_quantile_forecaster_object_truthy : Bool := true

/-- `model.predict(df)`: `AttributeError` when the capability is absent. -/
def callPredict (model : Option PyModel) (df : DataFrame) :
    Except PyError (List PyValue) :=
  match model with
  | none => .error (.attributeError "predict")
  | some m =>
    match m.predict with
    | none => .error (.attributeError "predict")
    | some f => .ok (f df)

/-- `model.predict_quantiles(df)`: `AttributeError` when absent. -/
def callPredictQuantiles (model : Option PyModel) (df : DataFrame) :
    Except PyError (List (List PyValue)) :=
  match model with
  | none => .error (.attributeError "predict_quantiles")
  | some m =>
    match m.predict_quantiles with
    | none => .error (.attributeError "predict_quantiles")
    | some f => .ok (f df)

/-- The prediction-caching block of the constructor (source lines 124-135):
the values assigned to `predict_output` and `quantile_predict_output`. -/
def cache_predictions (model : Option PyModel) (test_without_true_y : DataFrame) :
    Except PyError (Option (List PyValue) × Option (List (List PyValue))) := do
  if is_forecaster model then
    let predict_output ← callPredict model test_without_true_y
    if is_quantile_forecaster_object_truthy then
      let quantile_predict_output ← callPredictQuantiles model test_without_true_y
      pure (some predict_output, some quantile_predict_output)
    else
      pure (some predict_output, none)
  else
    pure (none, none)

/-- The attribute dictionary of an `RAIForecastingInsights` instance: a
field whose value is `none` was never assigned (`__new__` starts from an
empty dictionary); reading an unassigned attribute raises
`AttributeError`, subscripting `__dict__` with its name raises
`KeyError`. -/
structure Insights where
  _is_true_y_present : Option Bool := none
  _feature_metadata : Option (Option FeatureMetadata) := none
  task_type : Option String := none
  _classes : Option (Option (List PyValue)) := none
  _test_without_true_y : Option DataFrame := none
  _feature_columns : Option (List String) := none
  _feature_ranges : Option (List FeatureRangeEntry) := none
  _categories : Option (List String) := none
  _categorical_indexes : Option (List Nat) := none
  _category_dictionary : Option (List String) := none
  _string_ind_data : Option (List (List PyValue)) := none
  model : Option (Option PyModel) := none
  train : Option DataFrame := none
  test : Option DataFrame := none
  target_column : Option String := none
  _serializer : Option (Option Serializer) := none
  predict_output : Option (Option (List PyValue)) := none
  quantile_predict_output : Option (Option (List (List PyValue))) := none
  predict_proba_output : Option (Option (List PyValue)) := none
  _time_series : Option (List Cohort) := none
  categorical_features : Option (Option (List String)) := none

/-- Attribute read: `AttributeError` when the attribute was never set. -/
def attrGet {α : Type} (field : Option α) (name : String) : Except PyError α :=
  match field with
  | some v => .ok v
  | none => .error (.attributeError name)

/-- `RAIForecastingInsights.__init__` (source lines 63-137).  The base
class `RAIBaseInsights.__init__` (not under `src/`) is modelled from the
spec as assigning the model, train, test, target-column, task-type and
serializer attributes (spec sections 2 and 6). -/
def RAIForecastingInsights_init (model : Option PyModel) (train test : DataFrame)
    (target_column : String) (serializer : Option Serializer)
    (maximum_rows_for_test : Nat) (feature_metadata : Option FeatureMetadata) :
    Except PyError Insights := do
  let is_true_y_present := test.columns.contains target_column
  let fm0 := feature_metadata.getD {}
  let task_type := "forecasting"
  let fmv ← validate_rai_insights_input_parameters model train test target_column
    serializer maximum_rows_for_test feature_metadata is_true_y_present
  -- `_ensure_time_column_available` mutates the metadata object shared
  -- with `self._feature_metadata`; the updated metadata is threaded back
  let fm1 := fmv.getD fm0
  let test_without_true_y := if !is_true_y_present then test
    else test.drop target_column
  let feature_columns := test_without_true_y.columns
  let feature_ranges ← get_feature_ranges test (fm1.categorical_features.getD [])
    feature_columns fm1.time_column_name
  let catOut := process_categoricals feature_columns
    (fm1.categorical_features.getD []) test_without_true_y
  let cached ← cache_predictions model test_without_true_y
  let time_series ← generate_time_series_cohorts test fm1
  pure {
    _is_true_y_present := some is_true_y_present,
    _feature_metadata := some (some fm1),
    task_type := some task_type,
    _classes := some none,
    _test_without_true_y := some test_without_true_y,
    _feature_columns := some feature_columns,
    _feature_ranges := some feature_ranges,
    _categories := some catOut.1,
    _categorical_indexes := some catOut.2.1,
    _category_dictionary := some catOut.2.2.1,
    _string_ind_data := some catOut.2.2.2,
    model := some model,
    train := some train,
    test := some test,
    target_column := some target_column,
    _serializer := some serializer,
    predict_output := some cached.1,
    quantile_predict_output := some cached.2,
    predict_proba_output := none,
    _time_series := some time_series }

/-- The serializer- and model-presence checks that precede the row-count
check of the validator all pass. -/
def serializerChecksPass (model : Option PyModel) (serializer : Option Serializer) : Bool :=
  match serializer with
  | none => true
  | some s => model.isSome && s.has_save && s.has_load && s.picklable


/-- A one-column frame used in concrete instantiations: a single target
column. -/
def dfOnlyTarget : DataFrame :=
  { columns := ["y"], rows := [[.int 1]], index := [.int 0] }

/-- A two-row one-column frame. -/
def dfTwoRows : DataFrame :=
  { columns := ["y"], rows := [[.int 1], [.int 2]], index := [.int 0, .int 1] }

/-- A forecaster that does not expose the quantile capability. -/
def plainForecaster : PyModel :=
  { predict := some (fun df => df.rows.map (fun _ => PyValue.int 0)) }

/-- A forecaster that also exposes `predict_quantiles`. -/
def quantileForecaster : PyModel :=
  { predict := some (fun df => df.rows.map (fun _ => PyValue.int 0)),
    predict_quantiles := some (fun df => df.rows.map (fun _ => [PyValue.int 0])) }

/-- Train/test frame for the constructor instantiations: a string time
column, an integer series-id column and an integer target. -/
def dfDateSidY : DataFrame :=
  { columns := ["date", "sid", "y"],
    rows := [[.str "2020-01-01", .int 1, .int 5]],
    index := [.int 0] }

/-- Metadata declaring the time column, the series-id column and an empty
categorical list. -/
def fmDateSid : FeatureMetadata :=
  { categorical_features := some [],
    time_column_name := some "date",
    time_series_id_column_names := some ["sid"] }


/-- Modelled from the spec: evaluation of one INCLUDES cohort filter by
the cohort-filter collaborator — a row passes when its value in the filter
column, coerced to its string form, belongs to the allowed-value list
(spec sections 4.5 and 6). -/
def rowPassesFilter (df : DataFrame) (f : CohortFilter) (r : List PyValue) : Bool :=
  match df.colIdx f.column with
  | some i => f.arg.contains (pyStr (r.getD i (.str "")))
  | none => false

/-- Modelled from the spec: conjunction of a cohort's filters applied to
the frame's rows (spec section 8, cohort-count invariant). -/
def applyCohortFilters (df : DataFrame) (filters : List CohortFilter) :
    List (List PyValue) :=
  df.rows.filter (fun r => filters.all (fun f => rowPassesFilter df f r))

/-- A frame with one id column and a target, with a repeated id value. -/
def dfSidY : DataFrame :=
  { columns := ["sid", "y"],
    rows := [[.int 1, .int 10], [.int 2, .int 20], [.int 1, .int 30]],
    index := [.int 0, .int 1, .int 2] }

/-- Metadata declaring only the series-id column. -/
def fmSidOnly : FeatureMetadata :=
  { time_series_id_column_names := some ["sid"] }


/-- Modelled from the spec: `FeatureMetadata.to_dict()` — the persisted
dictionary form of the metadata (spec section 6). -/
structure FeatureMetadataDict where
  identity_feature_name : Option String
  datetime_features : Option (List String)
  categorical_features : Option (List String)
  dropped_features : Option (List String)
  time_column_name : Option String
  time_series_id_column_names : Option (List String)
deriving DecidableEq

/-- Modelled from the spec: `FeatureMetadata.to_dict()`. -/
def featureMetadataToDict (fm : FeatureMetadata) : FeatureMetadataDict :=
  { identity_feature_name := fm.identity_feature_name,
    datetime_features := fm.datetime_features,
    categorical_features := fm.categorical_features,
    dropped_features := fm.dropped_features,
    time_column_name := fm.time_column_name,
    time_series_id_column_names := fm.time_series_id_column_names }

/-- The content of `meta.json` (source lines 588-595, spec section 6). -/
structure MetaJson where
  target_column : String
  task_type : String
  classes : Option (List PyValue)
  feature_columns : List String
  feature_ranges : List FeatureRangeEntry
  feature_metadata : Option FeatureMetadataDict
deriving DecidableEq

/-- The persisted directory layout (spec section 6): model and train/test
saved by the base class, `meta.json`, and the `predictions/` files. -/
structure SavedDir where
  model : Option (Option PyModel) := none
  train : Option DataFrame := none
  test : Option DataFrame := none
  meta : Option MetaJson := none
  predict_json : Option (List PyValue) := none
  predict_proba_json : Option (List PyValue) := none

/-- `RAIForecastingInsights._save_predictions` (source lines 555-574):
after writing `predict.json` it unconditionally reads
`self.predict_proba_output`. -/
def save_predictions (inst : Insights) (dir : SavedDir) : Except PyError SavedDir := do
  let model ← attrGet inst.model "model"
  match model with
  | none => pure dir
  | some _ => do
    let predict_output ← attrGet inst.predict_output "predict_output"
    -- `self.predict_output.tolist()`: None has no attribute `tolist`
    let poList ← match predict_output with
      | none => throw (.attributeError "tolist")
      | some l => pure l
    let dir2 := { dir with predict_json := some poList }
    let ppo ← attrGet inst.predict_proba_output "predict_proba_output"
    match ppo with
    | none => pure dir2
    | some p => pure { dir2 with predict_proba_json := some p }

/-- `RAIForecastingInsights._save_metadata` (source lines 576-597). -/
def save_metadata (inst : Insights) (dir : SavedDir) : Except PyError SavedDir := do
  let classes0 ← attrGet inst._classes "_classes"
  let fmO ← attrGet inst._feature_metadata "_feature_metadata"
  let tc ← attrGet inst.target_column "target_column"
  let tt ← attrGet inst.task_type "task_type"
  let fc ← attrGet inst._feature_columns "_feature_columns"
  let fr ← attrGet inst._feature_ranges "_feature_ranges"
  pure { dir with meta := some {
    target_column := tc, task_type := tt, classes := classes0,
    feature_columns := fc, feature_ranges := fr,
    feature_metadata := fmO.map featureMetadataToDict } }

/-- Modelled from the spec: `RAIBaseInsights.save` (not under `src/`) —
persists the model and the train/test frames into the directory, then
invokes the subclass metadata and prediction savers (spec section 6). -/
def RAIForecastingInsights_save (inst : Insights) : Except PyError SavedDir := do
  let model ← attrGet inst.model "model"
  let train ← attrGet inst.train "train"
  let test ← attrGet inst.test "test"
  let dir0 : SavedDir := { model := some model, train := some train,
                           test := some test }
  let dir1 ← save_metadata inst dir0
  save_predictions inst dir1

/-- `RAIForecastingInsights._load_metadata` (source lines 624-670). -/
def load_metadata (inst : Insights) (dir : SavedDir) : Except PyError Insights := do
  let meta ← match dir.meta with
    | none => throw (.valueError "meta.json not found")
    | some m => pure m
  let inst1 := { inst with target_column := some meta.target_column,
                           task_type := some meta.task_type }
  -- lines 639-643 compute a local `classes` value that is never stored;
  -- line 645 assigns None to `_classes`
  let inst2 := { inst1 with _classes := some none }
  let inst3 := { inst2 with _feature_columns := some meta.feature_columns,
                            _feature_ranges := some meta.feature_ranges }
  let inst4 := { inst3 with _feature_metadata := some (meta.feature_metadata.map
    (fun (fmd : FeatureMetadataDict) =>
      ({ identity_feature_name := fmd.identity_feature_name,
         datetime_features := fmd.datetime_features,
         categorical_features := fmd.categorical_features,
         dropped_features := fmd.dropped_features } : FeatureMetadata))) }
  -- lines 662-670: the keyword arguments of `process_categoricals` are
  -- evaluated left to right; `inst.__dict__['categorical_features']` was
  -- never assigned by any operation of this module, so subscripting the
  -- attribute dictionary raises KeyError before the call happens
  let fcols ← attrGet inst4._feature_columns "_feature_columns"
  let catf ← match inst4.categorical_features with
    | none => throw (.keyError "categorical_features")
    | some v => pure v
  let tc ← attrGet inst4.target_column "target_column"
  let testdf ← attrGet inst4.test "test"
  let catOut := process_categoricals fcols (catf.getD []) (testdf.drop tc)
  pure { inst4 with _categories := some catOut.1,
                    _categorical_indexes := some catOut.2.1,
                    _category_dictionary := some catOut.2.2.1,
                    _string_ind_data := some catOut.2.2.2 }

/-- `RAIForecastingInsights._load_predictions` (source lines 672-693). -/
def load_predictions (inst : Insights) (dir : SavedDir) : Except PyError Insights := do
  let model ← match inst.model with
    | none => throw (.keyError "model")
    | some m => pure m
  match model with
  | none =>
    pure { inst with predict_output := some none,
                     predict_proba_output := some none }
  | some _ => do
    let predict_output ← match dir.predict_json with
      | none => throw (.valueError "predict.json not found")
      | some l => pure l
    pure { inst with predict_output := some (some predict_output),
                     predict_proba_output := some none }

/-- `RAIForecastingInsights.load` (source lines 694-715).  The base-class
`RAIBaseInsights._load` (not under `src/`) is modelled from the spec as
restoring the model and the train/test frames from the directory into the
fresh (empty-dictionary) instance before invoking the subclass metadata
loader (spec section 6). -/
def RAIForecastingInsights_load (dir : SavedDir) : Except PyError Insights := do
  let inst0 : Insights := {}
  let model ← match dir.model with
    | none => throw (.valueError "model not found")
    | some m => pure m
  let train ← match dir.train with
    | none => throw (.valueError "train data not found")
    | some t => pure t
  let test ← match dir.test with
    | none => throw (.valueError "test data not found")
    | some t => pure t
  let inst1 := { inst0 with model := some model, train := some train,
                            test := some test }
  let inst2 ← load_metadata inst1 dir
  load_predictions inst2 dir

/-- The dashboard payload assembled by `_get_dataset`
(spec section 6, dashboard payload fields). -/
structure DashboardDataset where
  task_type : Option String := none
  categorical_features : Option (List String) := none
  is_forecasting_true_y : Option Bool := none
  class_names : Option (Option (List PyValue)) := none
  feature_metadata : Option (Option FeatureMetadataDict) := none
  predicted_y : Option (List PyValue) := none
  features : Option (List (List PyValue)) := none
  index : Option (List PyValue) := none
  true_y : Option (List PyValue) := none
  feature_names : Option (List String) := none
  target_column : Option String := none
  pred_quantiles : Option (List (List PyValue)) := none
deriving DecidableEq

/-- Modelled from numpy: `np.shape` of a nested list followed by the
two-value unpacking of line 480 — an empty or ragged outer list yields a
one-element shape tuple and the unpacking raises ValueError. -/
def npShape2 (rows : List (List PyValue)) : Except PyError (Nat × Nat) :=
  match rows with
  | [] => .error (.valueError "not enough values to unpack (expected 2, got 1)")
  | r :: rest =>
    if rest.all (fun x => x.length == r.length) then .ok (rows.length, r.length)
    else .error (.valueError "not enough values to unpack (expected 2, got 1)")

/-- The `%Y-%m-%d` format shape: four digits, a dash, two digits, a dash,
two digits (calendar validity abstracted to the format shape). -/
def isYmdDate (s : String) : Bool :=
  match s.toList with
  | [y1, y2, y3, y4, d1, m1, m2, d2, a1, a2] =>
    y1.isDigit && y2.isDigit && y3.isDigit && y4.isDigit &&
      (d1 == Char.ofNat 45) && m1.isDigit && m2.isDigit &&
      (d2 == Char.ofNat 45) && a1.isDigit && a2.isDigit
  | _ => false

/-- The message of a pandas `%Y-%m-%d` parse failure on one value. -/
def pdParseErrorMsg (s : String) : String :=
  "time data " ++ s ++ " does not match format Y-m-d"

/-- Modelled from pandas: `pd.to_datetime(index, yearfirst=True,
format=...)` — string entries must match the format, else the parser
raises ValueError naming the offending value; numeric entries undergo
epoch conversion and succeed. -/
def pd_to_datetime_index (index : List PyValue) : Except PyError (List PyValue) :=
  index.mapM (fun v => match v with
    | .int n => .ok (.int n)
    | .str s =>
      if isYmdDate s then .ok (.str s)
      else .error (.valueError (pdParseErrorMsg s)))

/-- The ValueError message of lines 499-500. -/
def noTimeColumnMsg : String :=
  "No time_column_name was provided via feature_metadata."

/-- Lines 482-484: the two adjacent string literals concatenate without a
space. -/
def rowsLimitVisualizationMsg : String :=
  "Exceeds maximum number of rowsfor visualization (100000)"

def featuresLimitVisualizationMsg : String :=
  "Exceeds maximum number of features for visualization (1000). Please regenerate the explanation using fewer features or initialize the dashboard without passing a dataset."

/-- `RAIForecastingInsights._get_dataset` (source lines 437-531).
`convert_to_list` (raiutils) is modelled as the identity on the embedded
list representations; the embedded model callables are total, so the
prediction try/except wrappers fire only when the capability is absent. -/
def get_dataset (inst : Insights) : Except PyError DashboardDataset := do
  let task_type ← attrGet inst.task_type "task_type"
  let fmO ← attrGet inst._feature_metadata "_feature_metadata"
  -- line 440: attribute access on a possibly-None `_feature_metadata`
  let catFeatures ← match fmO with
    | none => throw (.attributeError "categorical_features")
    | some fm => pure (fm.categorical_features.getD [])
  let is_true_y ← attrGet inst._is_true_y_present "_is_true_y_present"
  let classes ← attrGet inst._classes "_classes"
  let d0 : DashboardDataset :=
    { task_type := some task_type, categorical_features := some catFeatures,
      is_forecasting_true_y := some is_true_y, class_names := some classes,
      feature_metadata := some (fmO.map featureMetadataToDict) }
  let dataset ← attrGet inst._test_without_true_y "_test_without_true_y"
  let list_dataset := dataset.rows
  let model ← attrGet inst.model "model"
  let predicted_y : Option (List PyValue) ← match model with
    | none => pure none
    | some m =>
      match m.predict with
      | none => throw (.valueError "Model does not support predict method for given")
      | some f => pure (some (f dataset))
  let d1 := match predicted_y with
    | some py => { d0 with predicted_y := some py }
    | none => d0
  let shape ← npShape2 list_dataset
  let row_length := shape.1
  let feature_length := shape.2
  if row_length > 100000 then
    throw (.valueError rowsLimitVisualizationMsg)
  if feature_length > 1000 then
    throw (.valueError featuresLimitVisualizationMsg)
  let d2 := { d1 with features := some list_dataset }
  -- lines 493-500: only AttributeError is converted into the
  -- no-time-column ValueError; a parser error propagates unchanged
  let idx ← match (do
      let t ← attrGet inst.test "test"
      pd_to_datetime_index t.index : Except PyError (List PyValue)) with
    | .ok v => pure v
    | .error (.attributeError _) => throw (.valueError noTimeColumnMsg)
    | .error e => throw e
  let d3 := { d2 with index := some idx }
  let true_y : Option (List PyValue) ←
    if is_true_y then do
      let t ← attrGet inst.test "test"
      let tc ← attrGet inst.target_column "target_column"
      let col ← t.getCol tc
      pure (some col)
    else pure predicted_y
  let d4 := match true_y with
    | some ty => if ty.length = row_length then { d3 with true_y := some ty } else d3
    | none => d3
  let features := dataset.columns
  if features.length ≠ feature_length then
    throw (.valueError "Feature vector length mismatch: feature names length differs from local explanations dimension")
  let d5 := { d4 with feature_names := some features }
  let tc2 ← attrGet inst.target_column "target_column"
  let d6 := { d5 with target_column := some tc2 }
  if is_quantile_forecaster model then do
    let pq ← callPredictQuantiles model dataset
    pure { d6 with pred_quantiles := some pq }
  else
    pure d6

/-- A frame whose index is a string that the date parser rejects. -/
def dfBadIndex : DataFrame :=
  { columns := ["x"], rows := [[.int 1]], index := [.str "not-a-date"] }

/-- An insights state, shaped as the constructor produces it for a
model-free object, whose test index is not parseable as dates. -/
def instC8 : Insights :=
  { _is_true_y_present := some false,
    _feature_metadata := some (some {}),
    task_type := some "forecasting",
    _classes := some none,
    _test_without_true_y := some { columns := ["x"], rows := [[.int 1]],
                                   index := [.str "not-a-date"] },
    _feature_columns := some ["x"],
    _feature_ranges := some [],
    _categories := some [], _categorical_indexes := some [],
    _category_dictionary := some [], _string_ind_data := some [],
    model := some none,
    train := some dfBadIndex,
    test := some dfBadIndex,
    target_column := some "y",
    _serializer := some none,
    predict_output := some none,
    quantile_predict_output := some none,
    predict_proba_output := none,
    _time_series := some [] }


/-! ## Theorems -/

/-- C5: Time-column resolution: (i) if neither metadata nor model declares
a time column, validation fails with the time-column-required error;
(ii) if only the model declares one, it is adopted into metadata when it is
a member of the feature names and validation fails otherwise; (iii) if both
declare one, validation fails exactly when the two names differ; (iv) if
only metadata declares one, it is kept unchanged and resolution succeeds. -/
theorem c5_time_column_resolution (fm : FeatureMetadata) (names : List String)
    (model : Option PyModel) :
    (fm.time_column_name = none → modelTimeColumn model = none →
      ensure_time_column_available fm names model =
        .error (.userConfigValidation timeColumnRequiredMsg)) ∧
    (∀ t, fm.time_column_name = none → modelTimeColumn model = some t →
      (t ∈ names →
        ensure_time_column_available fm names model =
          .ok { fm with time_column_name := some t }) ∧
      (t ∉ names →
        ensure_time_column_available fm names model =
          .error (.userConfigValidation (modelTimeColumnMissingMsg t)))) ∧
    (∀ t u, fm.time_column_name = some t → modelTimeColumn model = some u →
      (t ≠ u →
        ensure_time_column_available fm names model =
          .error (.userConfigValidation (timeColumnMismatchMsg t u))) ∧
      (t = u →
        ensure_time_column_available fm names model = .ok fm)) ∧
    (∀ t, fm.time_column_name = some t → modelTimeColumn model = none →
      ensure_time_column_available fm names model = .ok fm) := by
  refine ⟨?_, ?_, ?_, ?_⟩
  · intro h1 h2
    simp [ensure_time_column_available, h1, h2]
  · intro t h1 h2
    constructor
    · intro hmem
      simp [ensure_time_column_available, h1, h2, hmem]
    · intro hmem
      simp [ensure_time_column_available, h1, h2, hmem]
  · intro t u h1 h2
    constructor
    · intro hne
      simp [ensure_time_column_available, h1, h2, hne]
    · intro heq
      subst heq
      simp [ensure_time_column_available, h1, h2]
  · intro t h1 h2
    simp [ensure_time_column_available, h1, h2]

/-- Concrete instantiation of `c5_time_column_resolution`: with no time
column in metadata and a model without the attribute, resolution fails with
the required-time-column error. -/
theorem c5_time_column_resolution_witness :
    ensure_time_column_available {} ["date", "y"] none =
      .error (.userConfigValidation timeColumnRequiredMsg) :=
  (c5_time_column_resolution {} ["date", "y"] none).1 rfl rfl

theorem except_isOk_iff {α : Type} (e : Except PyError α) :
    e.isOk = true ↔ ∃ a, e = .ok a := by
  cases e <;> simp [Except.isOk, Except.toBool]

theorem mapM_except_ok {α β : Type} (f : α → Except PyError β) :
    ∀ l : List α, (∀ c ∈ l, (f c).isOk = true) →
      ∃ out : List β, l.mapM f = .ok out ∧ out.length = l.length ∧
        ∀ i (hi : i < l.length) (hi2 : i < out.length),
          f (l.get ⟨i, hi⟩) = .ok (out.get ⟨i, hi2⟩) := by
  intro l
  induction l with
  | nil =>
    intro _
    exact ⟨[], rfl, rfl, by intro i hi; cases hi⟩
  | cons x xs ih =>
    intro h
    obtain ⟨y, hy⟩ := (except_isOk_iff (f x)).mp (h x (by simp))
    obtain ⟨out, hout, hlen, hget⟩ := ih (fun c hc => h c (by simp [hc]))
    refine ⟨y :: out, ?_, by simp [hlen], ?_⟩
    · rw [List.mapM_cons, hy, hout]
      rfl
    · intro i hi hi2
      cases i with
      | zero => simpa using hy
      | succ n =>
        simp only [List.get_cons_succ]
        exact hget n (Nat.lt_of_succ_lt_succ hi) (Nat.lt_of_succ_lt_succ hi2)

/-- C7: Feature-range summarization is a pure function returning one entry
per feature column in `feature_columns` order: a declared categorical
column yields its distinct values; the declared time column yields its
minimum and maximum; every remaining column yields its minimum and maximum
cast to floating point, and for an integer column the cast values are
exactly the column minimum and maximum. -/
theorem c7_feature_range_summarization (test : DataFrame)
    (categorical_features feature_columns : List String)
    (time_column_name : Option String)
    (h : ∀ c ∈ feature_columns,
      (feature_range_for test categorical_features time_column_name c).isOk = true) :
    ∃ entries,
      get_feature_ranges test categorical_features feature_columns time_column_name =
        .ok entries ∧
      entries.length = feature_columns.length ∧
      ∀ i (hi : i < feature_columns.length) (hi2 : i < entries.length),
        (feature_columns.get ⟨i, hi⟩ ∈ categorical_features →
          ∃ vals, test.getCol (feature_columns.get ⟨i, hi⟩) = .ok vals ∧
            entries.get ⟨i, hi2⟩ =
              { column_name := feature_columns.get ⟨i, hi⟩,
                range_type := "categorical",
                unique_values := some (firstOccurrences vals) }) ∧
        (feature_columns.get ⟨i, hi⟩ ∉ categorical_features →
          time_column_name = some (feature_columns.get ⟨i, hi⟩) →
          ∃ vals mn mx, test.getCol (feature_columns.get ⟨i, hi⟩) = .ok vals ∧
            seriesMin vals = .ok mn ∧ seriesMax vals = .ok mx ∧
            entries.get ⟨i, hi2⟩ =
              { column_name := feature_columns.get ⟨i, hi⟩,
                range_type := "datetime",
                min_value := some mn, max_value := some mx }) ∧
        (feature_columns.get ⟨i, hi⟩ ∉ categorical_features →
          time_column_name ≠ some (feature_columns.get ⟨i, hi⟩) →
          ∃ vals mn mx mnf mxf,
            test.getCol (feature_columns.get ⟨i, hi⟩) = .ok vals ∧
            seriesMin vals = .ok mn ∧ seriesMax vals = .ok mx ∧
            pyFloatCast mn = .ok mnf ∧ pyFloatCast mx = .ok mxf ∧
            (∀ n : Int, mn = PyValue.int n → mnf = PyValue.int n) ∧
            (∀ n : Int, mx = PyValue.int n → mxf = PyValue.int n) ∧
            entries.get ⟨i, hi2⟩ =
              { column_name := feature_columns.get ⟨i, hi⟩,
                range_type := "integer",
                min_value := some mnf, max_value := some mxf }) := by
  obtain ⟨out, hout, hlen, hget⟩ :=
    mapM_except_ok (feature_range_for test categorical_features time_column_name)
      feature_columns h
  refine ⟨out, hout, hlen, ?_⟩
  intro i hi hi2
  have hfc := hget i hi hi2
  set col := feature_columns.get ⟨i, hi⟩ with hcol
  refine ⟨?_, ?_, ?_⟩
  · intro hmem
    cases hv : test.getCol col with
    | error e =>
      rw [feature_range_for] at hfc
      simp [Bind.bind, Except.bind, Functor.map, Except.map, pure, Except.pure, hmem, hv] at hfc
    | ok vals =>
      refine ⟨vals, rfl, ?_⟩
      rw [feature_range_for] at hfc
      simp [Bind.bind, Except.bind, Functor.map, Except.map, pure, Except.pure, hmem, hv] at hfc
      first
      | exact hfc
      | exact hfc.symm
  · intro hmem htime
    cases hv : test.getCol col with
    | error e =>
      rw [feature_range_for] at hfc
      simp [Bind.bind, Except.bind, Functor.map, Except.map, pure, Except.pure, hmem, hv, htime] at hfc
    | ok vals =>
      cases hmn : seriesMin vals with
      | error e =>
        rw [feature_range_for] at hfc
        simp [Bind.bind, Except.bind, Functor.map, Except.map, pure, Except.pure, hmem, hv, htime, hmn] at hfc
      | ok mn =>
        cases hmx : seriesMax vals with
        | error e =>
          rw [feature_range_for] at hfc
          simp [Bind.bind, Except.bind, Functor.map, Except.map, pure, Except.pure, hmem, hv, htime, hmn, hmx] at hfc
        | ok mx =>
          refine ⟨vals, mn, mx, rfl, hmn, hmx, ?_⟩
          rw [feature_range_for] at hfc
          simp [Bind.bind, Except.bind, Functor.map, Except.map, pure, Except.pure, hmem, hv, htime, hmn, hmx] at hfc
          first
          | exact hfc
          | exact hfc.symm
  · intro hmem htime
    cases hv : test.getCol col with
    | error e =>
      rw [feature_range_for] at hfc
      simp [Bind.bind, Except.bind, Functor.map, Except.map, pure, Except.pure, hmem, hv, htime] at hfc
    | ok vals =>
      cases hmn : seriesMin vals with
      | error e =>
        rw [feature_range_for] at hfc
        simp [Bind.bind, Except.bind, Functor.map, Except.map, pure, Except.pure, hmem, hv, htime, hmn] at hfc
      | ok mn =>
        cases hmx : seriesMax vals with
        | error e =>
          rw [feature_range_for] at hfc
          simp [Bind.bind, Except.bind, Functor.map, Except.map, pure, Except.pure, hmem, hv, htime, hmn, hmx] at hfc
        | ok mx =>
          cases hmnf : pyFloatCast mn with
          | error e =>
            rw [feature_range_for] at hfc
            simp [Bind.bind, Except.bind, Functor.map, Except.map, pure, Except.pure, hmem, hv, htime, hmn, hmx, hmnf] at hfc
          | ok mnf =>
            cases hmxf : pyFloatCast mx with
            | error e =>
              rw [feature_range_for] at hfc
              simp [Bind.bind, Except.bind, Functor.map, Except.map, pure, Except.pure, hmem, hv, htime, hmn, hmx, hmnf, hmxf] at hfc
            | ok mxf =>
              refine ⟨vals, mn, mx, mnf, mxf, rfl, hmn, hmx, hmnf, hmxf, ?_, ?_, ?_⟩
              · intro n hn
                subst hn
                simpa [pyFloatCast] using hmnf.symm
              · intro n hn
                subst hn
                simpa [pyFloatCast] using hmxf.symm
              · rw [feature_range_for] at hfc
                simp [Bind.bind, Except.bind, Functor.map, Except.map, pure, Except.pure, hmem, hv, htime, hmn, hmx, hmnf, hmxf] at hfc
                first
                | exact hfc
                | exact hfc.symm

/-- C1 (code bug): the quantile branch of the constructor tests the
truthiness of the function object `is_quantile_forecaster` instead of
calling it on the model, so for a forecaster without the quantile
capability the constructor calls `predict_quantiles` anyway and raises
`AttributeError` instead of storing None for the quantile output. -/
theorem c1_prediction_cache_quantile_truthiness_bug :
    is_forecaster (some plainForecaster) = true ∧
    is_quantile_forecaster (some plainForecaster) = false ∧
    cache_predictions (some plainForecaster) (dfDateSidY.drop "y") =
      .error (.attributeError "predict_quantiles") ∧
    RAIForecastingInsights_init (some plainForecaster) dfDateSidY dfDateSidY "y"
        none 5000 (some fmDateSid) =
      .error (.attributeError "predict_quantiles") :=
  ⟨rfl, rfl, rfl, rfl⟩

/-- C3 (code bug): with `feature_metadata` omitted (None) and otherwise
valid matching train/test frames with the target present, construction
does not succeed: line 242 accesses `.categorical_features` on None and
raises `AttributeError`. -/
theorem c3_construction_without_feature_metadata_attribute_error :
    RAIForecastingInsights_init none dfOnlyTarget dfOnlyTarget "y" none 5000 none =
      .error (.attributeError "categorical_features") ∧
    validate_rai_insights_input_parameters none dfOnlyTarget dfOnlyTarget "y" none
        5000 none true =
      .error (.attributeError "categorical_features") :=
  ⟨rfl, rfl⟩

/-- C9: whenever the test set has more rows than `maximum_rows_for_test`
(and the checks preceding the row-count rule pass), construction fails
with the validation error whose message references both the actual test
row count and the configured limit, and no insights object (hence no
derived state) is produced. -/
theorem c9_row_limit_validation (model : Option PyModel) (train test : DataFrame)
    (target_column : String) (serializer : Option Serializer)
    (maximum_rows_for_test : Nat) (feature_metadata : Option FeatureMetadata)
    (hser : serializerChecksPass model serializer = true)
    (htrain : 0 < train.nrows) (htest : 0 < test.nrows)
    (hlimit : maximum_rows_for_test < test.nrows) :
    validate_rai_insights_input_parameters model train test target_column serializer
        maximum_rows_for_test feature_metadata (test.columns.contains target_column) =
      .error (.userConfigValidation (rowLimitMsg test.nrows maximum_rows_for_test)) ∧
    RAIForecastingInsights_init model train test target_column serializer
        maximum_rows_for_test feature_metadata =
      .error (.userConfigValidation (rowLimitMsg test.nrows maximum_rows_for_test)) := by
  have hne : ¬(train.nrows ≤ 0 ∨ test.nrows ≤ 0) := by omega
  have hne1 : ¬train.nrows = 0 := by omega
  have hne2 : ¬test.nrows = 0 := by omega
  have hgt : test.nrows > maximum_rows_for_test := hlimit
  have hval : validate_rai_insights_input_parameters model train test target_column
      serializer maximum_rows_for_test feature_metadata
      (test.columns.contains target_column) =
      .error (.userConfigValidation (rowLimitMsg test.nrows maximum_rows_for_test)) := by
    unfold validate_rai_insights_input_parameters
    cases serializer with
    | none =>
      cases model <;>
        simp [Bind.bind, Except.bind, Pure.pure, Except.pure, throw, throwThe,
          MonadExceptOf.throw, hne, hne1, hne2, hgt]
    | some s =>
      simp only [serializerChecksPass, Bool.and_eq_true] at hser
      obtain ⟨⟨⟨hm, h1⟩, h2⟩, h3⟩ := hser
      cases model with
      | none => simp at hm
      | some m =>
        simp [Bind.bind, Except.bind, Pure.pure, Except.pure, throw, throwThe,
          MonadExceptOf.throw, hne, hne1, hne2, hgt, h1, h2, h3]
  refine ⟨hval, ?_⟩
  have hval2 : validate_rai_insights_input_parameters model train test target_column
      serializer maximum_rows_for_test feature_metadata
      (decide (target_column ∈ test.columns)) =
      .error (.userConfigValidation (rowLimitMsg test.nrows maximum_rows_for_test)) := by
    simpa using hval
  unfold RAIForecastingInsights_init
  simp [Bind.bind, Except.bind, hval2]

/-- Concrete instantiation of `c9_row_limit_validation`: a two-row test
set against a limit of one row. -/
theorem c9_row_limit_validation_witness :
    RAIForecastingInsights_init none dfTwoRows dfTwoRows "y" none 1 none =
      .error (.userConfigValidation (rowLimitMsg 2 1)) :=
  (c9_row_limit_validation none dfTwoRows dfTwoRows "y" none 1 none
    (by decide) (by decide) (by decide) (by decide)).2

/-- C2 (code bug): on a test set with one id column `sid` of value `1`,
the generated cohort carries the correct singleton INCLUDES filter, but
its name is the characters of "sid = 1" joined with ", " — the name
accumulator is a Python list extended with `+=` by the formatted string,
which appends its characters one by one — instead of "sid = 1". -/
theorem c2_cohort_name_character_join_bug :
    generate_time_series_cohorts dfDateSidY fmDateSid =
      .ok [{ name := "s, i, d,  , =,  , 1",
             cohort_filters :=
               [{ method := METHOD_INCLUDES, arg := ["1"], column := "sid" }] }] ∧
    "s, i, d,  , =,  , 1" ≠ "sid = 1" :=
  ⟨rfl, by decide⟩

theorem pyValueLt_irrefl (a : PyValue) : pyValueLt a a = false := by
  cases a <;> simp [pyValueLt]

theorem pyValueLt_asymm (a b : PyValue) (h : pyValueLt a b = true) :
    pyValueLt b a = false := by
  cases a <;> cases b <;> simp [pyValueLt] at h ⊢ <;>
    first
    | omega
    | exact le_of_lt h

theorem pyValueLt_trans (a b c : PyValue) (h1 : pyValueLt a b = true)
    (h2 : pyValueLt b c = true) : pyValueLt a c = true := by
  cases a <;> cases b <;> cases c <;> simp [pyValueLt] at h1 h2 ⊢ <;>
    first
    | omega
    | exact lt_trans h1 h2

theorem pyValueLt_eq_of_both_false (a b : PyValue)
    (h1 : pyValueLt a b = false) (h2 : pyValueLt b a = false) : a = b := by
  cases a <;> cases b <;> simp [pyValueLt] at h1 h2 ⊢ <;>
    first
    | omega
    | exact le_antisymm h2 h1
    | exact String.ext (le_antisymm h2 h1)

theorem keyLt_asymm : ∀ (a b : List PyValue), keyLt a b = true → keyLt b a = false
  | [], [] => by simp [keyLt]
  | [], _ :: _ => by simp [keyLt]
  | _ :: _, [] => by simp [keyLt]
  | a :: as, b :: bs => by
    intro h
    simp only [keyLt, Bool.or_eq_true, Bool.and_eq_true, decide_eq_true_eq,
      Bool.or_eq_false_iff, Bool.and_eq_false_iff, decide_eq_false_iff_not] at h ⊢
    rcases h with hab | ⟨heq, hlt⟩
    · constructor
      · exact pyValueLt_asymm a b hab
      · left
        intro hba
        subst hba
        rw [pyValueLt_irrefl] at hab
        cases hab
    · subst heq
      refine ⟨pyValueLt_irrefl a, ?_⟩
      right
      exact keyLt_asymm as bs hlt

theorem keyLt_trans : ∀ (a b c : List PyValue), keyLt a b = true →
    keyLt b c = true → keyLt a c = true
  | [], [], _ :: _, _, _ => by simp [keyLt]
  | [], [], [], h1, _ => by simp [keyLt] at h1
  | [], _ :: _, [], _, h2 => by simp [keyLt] at h2
  | [], _ :: _, _ :: _, _, _ => by simp [keyLt]
  | _ :: _, [], _, h1, _ => by simp [keyLt] at h1
  | _ :: _, _ :: _, [], _, h2 => by simp [keyLt] at h2
  | a :: as, b :: bs, c :: cs, h1, h2 => by
    simp only [keyLt, Bool.or_eq_true, Bool.and_eq_true, decide_eq_true_eq] at h1 h2 ⊢
    rcases h1 with hab | ⟨hab, hk1⟩
    · rcases h2 with hbc | ⟨hbc, hk2⟩
      · exact Or.inl (pyValueLt_trans a b c hab hbc)
      · subst hbc
        exact Or.inl hab
    · subst hab
      rcases h2 with hbc | ⟨hbc, hk2⟩
      · exact Or.inl hbc
      · subst hbc
        exact Or.inr ⟨rfl, keyLt_trans as bs cs hk1 hk2⟩

theorem keyLt_eq_of_both_false : ∀ (a b : List PyValue), keyLt a b = false →
    keyLt b a = false → a = b
  | [], [], _, _ => rfl
  | [], _ :: _, h1, _ => by simp [keyLt] at h1
  | _ :: _, [], _, h2 => by simp [keyLt] at h2
  | a :: as, b :: bs, h1, h2 => by
    simp only [keyLt, Bool.or_eq_false_iff, Bool.and_eq_false_iff,
      decide_eq_false_iff_not] at h1 h2
    obtain ⟨hab, h1r⟩ := h1
    obtain ⟨hba, h2r⟩ := h2
    have heq : a = b := pyValueLt_eq_of_both_false a b hab hba
    subst heq
    have h1k : keyLt as bs = false := by
      rcases h1r with h | h
      · exact absurd rfl h
      · exact h
    have h2k : keyLt bs as = false := by
      rcases h2r with h | h
      · exact absurd rfl h
      · exact h
    rw [keyLt_eq_of_both_false as bs h1k h2k]

theorem vcLeB_total (x y : List PyValue × Nat) :
    vcLeB x y = true ∨ vcLeB y x = true := by
  rcases Nat.lt_trichotomy x.2 y.2 with h | h | h
  · right
    simp [vcLeB, h]
  · cases hk : keyLt y.1 x.1 with
    | false =>
      left
      simp [vcLeB, h, hk]
    | true =>
      right
      have := keyLt_asymm y.1 x.1 hk
      simp [vcLeB, h.symm, this]
  · left
    simp [vcLeB, h]

theorem vcLeB_trans (x y z : List PyValue × Nat) (h1 : vcLeB x y = true)
    (h2 : vcLeB y z = true) : vcLeB x z = true := by
  simp only [vcLeB, Bool.or_eq_true, Bool.and_eq_true, decide_eq_true_eq,
    Bool.not_eq_true'] at h1 h2 ⊢
  rcases h1 with h1 | ⟨h1e, h1k⟩
  · rcases h2 with h2 | ⟨h2e, h2k⟩
    · exact Or.inl (lt_trans h2 h1)
    · exact Or.inl (h2e ▸ h1)
  · rcases h2 with h2 | ⟨h2e, h2k⟩
    · exact Or.inl (h1e ▸ h2)
    · refine Or.inr ⟨h1e.trans h2e, ?_⟩
      cases hzx : keyLt z.1 x.1 with
      | false => rfl
      | true =>
        cases hyz : keyLt y.1 z.1 with
        | true =>
          have : keyLt y.1 x.1 = true := keyLt_trans y.1 z.1 x.1 hyz hzx
          rw [this] at h1k
          cases h1k
        | false =>
          have : z.1 = y.1 := keyLt_eq_of_both_false z.1 y.1 h2k hyz
          rw [this] at hzx
          rw [hzx] at h1k
          cases h1k

theorem mem_firstOccurrencesAux {α : Type} [DecidableEq α] :
    ∀ (l seen : List α) (a : α),
      a ∈ firstOccurrencesAux seen l ↔ a ∈ l ∧ a ∉ seen
  | [], seen, a => by simp [firstOccurrencesAux]
  | x :: xs, seen, a => by
    by_cases hx : x ∈ seen
    · rw [firstOccurrencesAux, if_pos hx, mem_firstOccurrencesAux xs seen a]
      constructor
      · rintro ⟨h1, h2⟩
        exact ⟨List.mem_cons_of_mem x h1, h2⟩
      · rintro ⟨h1, h2⟩
        rcases List.mem_cons.mp h1 with h | h
        · subst h
          exact absurd hx h2
        · exact ⟨h, h2⟩
    · rw [firstOccurrencesAux, if_neg hx]
      simp only [List.mem_cons, mem_firstOccurrencesAux xs (x :: seen) a]
      constructor
      · rintro (h | ⟨h1, h2⟩)
        · subst h
          exact ⟨Or.inl rfl, hx⟩
        · refine ⟨Or.inr h1, fun hs => h2 (Or.inr hs)⟩
      · rintro ⟨h1 | h1, h2⟩
        · exact Or.inl h1
        · by_cases hax : a = x
          · exact Or.inl hax
          · exact Or.inr ⟨h1, fun hs => hs.elim hax h2⟩

theorem nodup_firstOccurrencesAux {α : Type} [DecidableEq α] :
    ∀ (l seen : List α), (firstOccurrencesAux seen l).Nodup
  | [], seen => by simp [firstOccurrencesAux]
  | x :: xs, seen => by
    by_cases hx : x ∈ seen
    · rw [firstOccurrencesAux, if_pos hx]
      exact nodup_firstOccurrencesAux xs seen
    · rw [firstOccurrencesAux, if_neg hx]
      refine List.nodup_cons.mpr ⟨?_, nodup_firstOccurrencesAux xs (x :: seen)⟩
      intro hmem
      have := (mem_firstOccurrencesAux xs (x :: seen) x).mp hmem
      exact this.2 (List.mem_cons_self x seen)

theorem mem_firstOccurrences {α : Type} [DecidableEq α] (l : List α) (a : α) :
    a ∈ firstOccurrences l ↔ a ∈ l := by
  rw [firstOccurrences, mem_firstOccurrencesAux]
  simp

theorem length_firstOccurrences_eq_card {α : Type} [DecidableEq α] (l : List α) :
    (firstOccurrences l).length = l.toFinset.card := by
  have hnd : (firstOccurrences l).Nodup := nodup_firstOccurrencesAux l []
  have hset : (firstOccurrences l).toFinset = l.toFinset := by
    ext a
    simp [List.mem_toFinset, mem_firstOccurrences]
  rw [← List.toFinset_card_of_nodup hnd, hset]

theorem mapM_ok_spec {α β : Type} (f : α → Except PyError β) :
    ∀ (l : List α) (out : List β), l.mapM f = .ok out →
      out.length = l.length ∧
      ∀ i (hi : i < l.length) (hi2 : i < out.length),
        f (l.get ⟨i, hi⟩) = .ok (out.get ⟨i, hi2⟩)
  | [], out, h => by
    simp only [List.mapM_nil] at h
    have : out = [] := by
      cases h
      rfl
    subst this
    exact ⟨rfl, by intro i hi; cases hi⟩
  | x :: xs, out, h => by
    rw [List.mapM_cons] at h
    cases hfx : f x with
    | error e =>
      rw [hfx] at h
      cases h
    | ok y =>
      rw [hfx] at h
      cases hxs : xs.mapM f with
      | error e =>
        rw [hxs] at h
        cases h
      | ok ys =>
        rw [hxs] at h
        have hout : out = y :: ys := by
          cases h
          rfl
        subst hout
        obtain ⟨hlen, hget⟩ := mapM_ok_spec f xs ys hxs
        refine ⟨by simp [hlen], ?_⟩
        intro i hi hi2
        cases i with
        | zero => simpa using hfx
        | succ n =>
          simp only [List.get_cons_succ]
          exact hget n (Nat.lt_of_succ_lt_succ hi) (Nat.lt_of_succ_lt_succ hi2)

theorem filtersAll_iff (test : DataFrame) (r : List PyValue) :
    ∀ (cols : List String) (idxs : List Nat) (k : List PyValue),
      idxs.length = cols.length → k.length = cols.length →
      (∀ j (hj : j < cols.length) (hj2 : j < idxs.length),
        test.colIdx (cols.get ⟨j, hj⟩) = some (idxs.get ⟨j, hj2⟩)) →
      ((((cols.zip (k.map pyStr)).map (fun cv =>
          ({ method := METHOD_INCLUDES, arg := [cv.snd],
             column := cv.fst } : CohortFilter))).all
          (fun f => rowPassesFilter test f r) = true) ↔
        (projectRow idxs r).map pyStr = k.map pyStr) := by
  intro cols
  induction cols with
  | nil =>
    intro idxs k h1 h2 hpt
    have hi : idxs = [] := List.length_eq_zero.mp h1
    have hk : k = [] := List.length_eq_zero.mp h2
    subst hi
    subst hk
    simp [projectRow]
  | cons c cs ih =>
    intro idxs k h1 h2 hpt
    cases idxs with
    | nil => simp at h1
    | cons i is =>
      cases k with
      | nil => simp at h2
      | cons v vs =>
        have hci : test.colIdx c = some i := by
          have h := hpt 0 (by simp) (by simp)
          simpa using h
        have hpt2 : ∀ j (hj : j < cs.length) (hj2 : j < is.length),
            test.colIdx (cs.get ⟨j, hj⟩) = some (is.get ⟨j, hj2⟩) := by
          intro j hj hj2
          have h := hpt (j + 1) (by simpa using Nat.succ_lt_succ hj)
            (by simpa using Nat.succ_lt_succ hj2)
          simpa using h
        have h1s : is.length = cs.length := by simpa using h1
        have h2s : vs.length = cs.length := by simpa using h2
        have IH := ih is vs h1s h2s hpt2
        have hheadIff : rowPassesFilter test
            { method := METHOD_INCLUDES, arg := [pyStr v], column := c } r = true ↔
            pyStr (r.getD i (.str "")) = pyStr v := by
          simp [rowPassesFilter, hci]
        simp only [List.map_cons, List.zip_cons_cons, List.all_cons, Bool.and_eq_true]
        constructor
        · rintro ⟨hh, ht⟩
          have hh2 := hheadIff.mp hh
          have ht2 := IH.mp ht
          rw [show projectRow (i :: is) r =
            r.getD i (.str "") :: projectRow is r from rfl]
          simp only [List.map_cons]
          rw [hh2, ht2]
        · intro heq
          rw [show projectRow (i :: is) r =
            r.getD i (.str "") :: projectRow is r from rfl] at heq
          simp only [List.map_cons, List.cons.injEq] at heq
          exact ⟨hheadIff.mpr heq.1, IH.mpr heq.2⟩

/-- C6: with declared id columns all present in the test set, cohort
generation succeeds; the cohorts are exactly the value-counts combinations
in order; their number equals the number of distinct id-value combinations
in the test rows; the combination list is sorted by descending frequency
with ties broken by ascending key order; and the conjunction of each
cohort's filters selects exactly the test rows whose id-column values
stringify to that cohort's combination. -/
theorem c6_cohort_generation_counts_order_filters (test : DataFrame)
    (fm : FeatureMetadata) (cols : List String) (idxs : List Nat)
    (hcols : fm.time_series_id_column_names = some cols)
    (hres : resolveColumnIdxs test cols = .ok idxs) :
    ∃ cohorts, generate_time_series_cohorts test fm = .ok cohorts ∧
      cohorts = (pandasValueCounts (test.rows.map (projectRow idxs))).map
        (fun kv => mkTimeSeriesCohort cols kv.fst) ∧
      cohorts.length = (test.rows.map (projectRow idxs)).toFinset.card ∧
      List.Sorted vcRel (pandasValueCounts (test.rows.map (projectRow idxs))) ∧
      (∀ i (hi2 : i < (pandasValueCounts (test.rows.map (projectRow idxs))).length),
        applyCohortFilters test
            (mkTimeSeriesCohort cols
              ((pandasValueCounts (test.rows.map (projectRow idxs))).get
                ⟨i, hi2⟩).fst).cohort_filters =
          test.rows.filter (fun r =>
            decide ((projectRow idxs r).map pyStr =
              ((pandasValueCounts (test.rows.map (projectRow idxs))).get
                ⟨i, hi2⟩).fst.map pyStr))) := by
  obtain ⟨hlen, hpt0⟩ := mapM_ok_spec _ cols idxs hres
  have hpt : ∀ j (hj : j < cols.length) (hj2 : j < idxs.length),
      test.colIdx (cols.get ⟨j, hj⟩) = some (idxs.get ⟨j, hj2⟩) := by
    intro j hj hj2
    have h := hpt0 j hj hj2
    cases hc : test.colIdx (cols.get ⟨j, hj⟩) with
    | none =>
      rw [hc] at h
      cases h
    | some x =>
      rw [hc] at h
      cases h
      rfl
  refine ⟨(pandasValueCounts (test.rows.map (projectRow idxs))).map
      (fun kv => mkTimeSeriesCohort cols kv.fst), ?_, rfl, ?_, ?_, ?_⟩
  · simp [generate_time_series_cohorts, hcols, hres, Bind.bind, Except.bind,
      pure, Except.pure, throw, throwThe, MonadExceptOf.throw]
  · rw [List.length_map, pandasValueCounts,
      (List.perm_insertionSort vcRel _).length_eq, tallyKeys, List.length_map,
      length_firstOccurrences_eq_card]
  · exact @List.sorted_insertionSort _ vcRel _ ⟨fun a b => vcLeB_total a b⟩
      ⟨fun a b c => vcLeB_trans a b c⟩ (tallyKeys (test.rows.map (projectRow idxs)))
  · intro i hi2
    have hkmem : (pandasValueCounts (test.rows.map (projectRow idxs))).get ⟨i, hi2⟩ ∈
        pandasValueCounts (test.rows.map (projectRow idxs)) := List.get_mem _ _ _
    have hk2 : (pandasValueCounts (test.rows.map (projectRow idxs))).get ⟨i, hi2⟩ ∈
        tallyKeys (test.rows.map (projectRow idxs)) :=
      ((List.perm_insertionSort vcRel _).mem_iff).mp hkmem
    obtain ⟨k0, hk0mem, hk0eq⟩ := List.mem_map.mp hk2
    have hk0rows : k0 ∈ test.rows.map (projectRow idxs) :=
      (mem_firstOccurrences _ k0).mp hk0mem
    obtain ⟨r0, _, hr0⟩ := List.mem_map.mp hk0rows
    have hklen : ((pandasValueCounts (test.rows.map (projectRow idxs))).get
        ⟨i, hi2⟩).fst.length = cols.length := by
      rw [← hk0eq]
      simp only []
      rw [← hr0, projectRow, List.length_map, hlen]
    rw [applyCohortFilters]
    apply List.filter_congr
    intro r hr
    have hbool : ∀ (x y : Bool), (x = true ↔ y = true) → x = y := by decide
    apply hbool
    rw [show (mkTimeSeriesCohort cols ((pandasValueCounts
        (test.rows.map (projectRow idxs))).get ⟨i, hi2⟩).fst).cohort_filters =
        ((cols.zip ((((pandasValueCounts (test.rows.map (projectRow idxs))).get
          ⟨i, hi2⟩).fst).map pyStr)).map (fun cv =>
          ({ method := METHOD_INCLUDES, arg := [cv.snd],
             column := cv.fst } : CohortFilter))) from rfl]
    rw [filtersAll_iff test r cols idxs _ hlen hklen hpt]
    simp

/-- Concrete instantiation of `c6_cohort_generation_counts_order_filters`:
a three-row frame with id values 1, 2, 1 yields exactly two cohorts, the
number of distinct id combinations. -/
theorem c6_cohort_generation_witness :
    ∃ cohorts, generate_time_series_cohorts dfSidY fmSidOnly = .ok cohorts ∧
      cohorts.length = (dfSidY.rows.map (projectRow [0])).toFinset.card := by
  obtain ⟨cohorts, h1, _, h3, _, _⟩ :=
    c6_cohort_generation_counts_order_filters dfSidY fmSidOnly ["sid"] [0]
      rfl rfl
  exact ⟨cohorts, h1, h3⟩

/-- Concrete instantiation of `c7_feature_range_summarization`: a frame
with a string time column and an integer column yields one range entry per
feature column. -/
theorem c7_feature_range_summarization_witness :
    (∀ c ∈ ["date", "sid"],
      (feature_range_for dfDateSidY [] (some "date") c).isOk = true) ∧
    ∃ entries,
      get_feature_ranges dfDateSidY [] ["date", "sid"] (some "date") =
        .ok entries ∧ entries.length = 2 := by
  have h : ∀ c ∈ ["date", "sid"],
      (feature_range_for dfDateSidY [] (some "date") c).isOk = true := by decide
  obtain ⟨entries, h1, h2, _⟩ :=
    c7_feature_range_summarization dfDateSidY [] ["date", "sid"] (some "date") h
  exact ⟨h, entries, h1, by simp [h2]⟩

/-- C4 (code bug): a successfully constructed (model-free) insights object
saves, but loading the saved directory fails: `_load_metadata` passes
`inst.__dict__["categorical_features"]` to the categorical collaborator,
and that key is never assigned by any operation in the module, so load
raises KeyError before any object is returned and the round trip never
completes. -/
theorem c4_save_load_roundtrip_keyerror :
    ∃ inst dir,
      RAIForecastingInsights_init none dfDateSidY dfDateSidY "y" none 5000
        (some fmDateSid) = .ok inst ∧
      RAIForecastingInsights_save inst = .ok dir ∧
      RAIForecastingInsights_load dir = .error (.keyError "categorical_features") :=
  ⟨_, _, rfl, rfl, rfl⟩

/-- C10: every construction that succeeds with a forecaster model assigns
`predict_output` and `quantile_predict_output` but never
`predict_proba_output`, and `_save_predictions`, after writing
predict.json, reads `self.predict_proba_output` and raises
`AttributeError` on that never-assigned attribute. -/
theorem except_bind_ok {α β : Type} {e : Except PyError α}
    {f : α → Except PyError β} {b : β} (h : (e >>= f) = .ok b) :
    ∃ a, e = .ok a ∧ f a = .ok b := by
  cases e with
  | error err => simp [Bind.bind, Except.bind] at h
  | ok a =>
    refine ⟨a, rfl, ?_⟩
    simpa [Bind.bind, Except.bind] using h

/-- C10: every construction that succeeds with a forecaster model assigns
`predict_output` and `quantile_predict_output` but never
`predict_proba_output`, and `_save_predictions`, after writing
predict.json, reads `self.predict_proba_output` and raises
`AttributeError` on that never-assigned attribute. -/
theorem c10_save_predictions_unset_attribute (model : Option PyModel)
    (train test : DataFrame) (target_column : String)
    (serializer : Option Serializer) (maximum_rows_for_test : Nat)
    (feature_metadata : Option FeatureMetadata) (inst : Insights)
    (h : RAIForecastingInsights_init model train test target_column serializer
      maximum_rows_for_test feature_metadata = .ok inst)
    (hf : is_forecaster model = true) :
    (∃ p, inst.predict_output = some (some p)) ∧
    (∃ q, inst.quantile_predict_output = some (some q)) ∧
    inst.predict_proba_output = none ∧
    ∀ dir, save_predictions inst dir =
      .error (.attributeError "predict_proba_output") := by
  obtain ⟨m, hm⟩ : ∃ m, model = some m := by
    cases model with
    | none => simp [is_forecaster] at hf
    | some m => exact ⟨m, rfl⟩
  rw [RAIForecastingInsights_init] at h
  obtain ⟨fmv, hval, h⟩ := except_bind_ok h
  obtain ⟨ranges, hranges, h⟩ := except_bind_ok h
  obtain ⟨cached, hcache, h⟩ := except_bind_ok h
  obtain ⟨ts, hts, h⟩ := except_bind_ok h
  rw [cache_predictions, hf] at hcache
  simp only [if_true] at hcache
  obtain ⟨po, hpo, hcache⟩ := except_bind_ok hcache
  simp only [is_quantile_forecaster_object_truthy, if_true] at hcache
  obtain ⟨qo, hqo, hcache⟩ := except_bind_ok hcache
  simp only [pure, Except.pure, Except.ok.injEq] at hcache h
  subst hcache
  subst h
  subst hm
  refine ⟨⟨po, rfl⟩, ⟨qo, rfl⟩, rfl, ?_⟩
  intro dir
  simp [save_predictions, attrGet, Bind.bind, Except.bind, pure, Except.pure,
    throw, throwThe, MonadExceptOf.throw]

/-- Concrete instantiation of `c10_save_predictions_unset_attribute`: a
quantile forecaster constructs successfully and saving its predictions
raises AttributeError on `predict_proba_output`. -/
theorem c10_save_predictions_unset_attribute_witness :
    ∃ inst,
      RAIForecastingInsights_init (some quantileForecaster) dfDateSidY dfDateSidY
        "y" none 5000 (some fmDateSid) = .ok inst ∧
      save_predictions inst {} =
        .error (.attributeError "predict_proba_output") := by
  refine ⟨_, rfl, ?_⟩
  exact (c10_save_predictions_unset_attribute (some quantileForecaster) dfDateSidY
    dfDateSidY "y" none 5000 (some fmDateSid) _ rfl rfl).2.2.2 {}

/-- C8 (counterexample): a test set whose row index holds the string
"not-a-date" makes the dashboard build fail with the date parser's own
ValueError, not with a ValueError reporting that no valid time column was
supplied via feature_metadata. -/
theorem c8_unparseable_index_message_counterexample :
    get_dataset instC8 = .error (.valueError (pdParseErrorMsg "not-a-date")) ∧
    pdParseErrorMsg "not-a-date" ≠ noTimeColumnMsg :=
  ⟨rfl, by decide⟩

/-- C8 (amended): during dashboard-payload construction, an index entry
that the date parser rejects makes the build fail by propagating the
parser's own ValueError (naming the offending value); the ValueError
reporting that no valid time column was supplied via feature_metadata
arises only when the index conversion raises AttributeError. -/
theorem c8_parse_error_propagates (inst : Insights) (tt : String)
    (fm : FeatureMetadata) (b : Bool) (cls : Option (List PyValue))
    (d : DataFrame) (t : DataFrame) (r c : Nat) (m : String)
    (h1 : inst.task_type = some tt)
    (h2 : inst._feature_metadata = some (some fm))
    (h3 : inst._is_true_y_present = some b)
    (h4 : inst._classes = some cls)
    (h5 : inst._test_without_true_y = some d)
    (h6 : inst.model = some none)
    (h7 : inst.test = some t)
    (h8 : npShape2 d.rows = .ok (r, c))
    (h9 : r ≤ 100000) (h10 : c ≤ 1000)
    (h11 : pd_to_datetime_index t.index = .error (.valueError m)) :
    get_dataset inst = .error (.valueError m) := by
  have h9n : ¬(r > 100000) := by omega
  have h10n : ¬(c > 1000) := by omega
  rw [get_dataset]
  simp [attrGet, h1, h2, h3, h4, h5, h6, h7, h8, h9n, h10n, h11, Bind.bind,
    Except.bind, pure, Except.pure, throw, throwThe, MonadExceptOf.throw]

/-- Concrete instantiation of `c8_parse_error_propagates` at `instC8`. -/
theorem c8_parse_error_propagates_witness :
    get_dataset instC8 = .error (.valueError (pdParseErrorMsg "not-a-date")) :=
  c8_parse_error_propagates instC8 "forecasting" {} false none
    { columns := ["x"], rows := [[.int 1]], index := [.str "not-a-date"] }
    dfBadIndex 1 1 (pdParseErrorMsg "not-a-date")
    rfl rfl rfl rfl rfl rfl rfl rfl (by omega) (by omega) rfl
